import Mathlib

/-!
Shallow embedding of the credential and token lifecycle of the
Fresh-AI-Backend repository: the token codec (`TokenService`), the token
ledger (`TokenRepository` over the `Token` entity), the credential service
(login / refresh / logout of `UserController`), the password-reset
orchestrator (`forgotPassword` / `verifyResetPasswordToken` /
`resetPassword`), and the auth gate (`authMiddleware`).

Conventions of the embedding:
- time instants are milliseconds since the Unix epoch (`Date.getTime`);
- a signed JWT is identified with the triple (payload, signing secret,
  expiry instant): `jwt.sign` is injective on that data and the serialized
  string determines it, so string equality of serialized tokens coincides
  with equality of `Jwt` values;
- the database is a pair of row lists (token rows and user rows) plus a
  fresh-id counter; TypeORM `findOne` returns the first matching row;
- a TypeORM where-clause key whose value is the JavaScript `undefined` is
  silently dropped from the clause (TypeORM skips undefined-valued keys);
  this matters because the controllers read `payload.jti` from a payload
  type that has no `jti` member;
- bcrypt is an external collaborator and is modelled as an injective digest
  function together with the matching comparison.
-/

namespace FreshAI

/-- Time instants in milliseconds since the Unix epoch (JS `Date.getTime`). -/
abbrev Millis := Nat

/-- Token kinds of `src/utils/tokenType` as used by `TokenRepository`:
three distinct constants (the spec names the third kind ADMIN_SET_PASSWORD). -/
inductive TokenKind
  | REFRESH
  | RESET_PASSWORD
  | USER_PASSWORD_SET
  deriving DecidableEq, Repr

/-- Errors thrown by the controllers and services. `AppError` values built by
the factory helpers of `middleware/errorHandler.ts` carry an HTTP status code
and an error code; plain `new Error(msg)` values carry a message only. -/
structure JsError where
  message : String
  statusCode : Option Nat
  code : Option String
  deriving DecidableEq, Repr

/-- Factory `createUnauthorizedError` (the AuthenticationError of the spec
taxonomy, HTTP 401). -/
def createUnauthorizedError (m : String) : JsError :=
  ⟨m, some 401, some "UNAUTHORIZED"⟩

/-- Factory `createNotFoundError` (the NotFoundError of the spec taxonomy,
HTTP 404). -/
def createNotFoundError (m : String) : JsError :=
  ⟨m, some 404, some "RESOURCE_NOT_FOUND"⟩

/-- Factory `createBadRequestError` (HTTP 400). -/
def createBadRequestError (m : String) : JsError :=
  ⟨m, some 400, some "BAD_REQUEST"⟩

/-- Factory `createConflictError` (HTTP 409). -/
def createConflictError (m : String) : JsError :=
  ⟨m, some 409, some "RESOURCE_CONFLICT"⟩

/-- A plain `new Error(msg)` as thrown by `TokenDatabaseService`. -/
def plainError (m : String) : JsError :=
  ⟨m, none, none⟩

/-- User entity (entities/User.ts). The role relation is flattened to the
role name, which is the only part the token flows read (`user.role?.name`). -/
structure User where
  id : String
  email : String
  password : String
  fullName : String
  userName : String
  isVerified : Bool
  role : Option String
  deriving DecidableEq, Repr

/-- Password hasher collaborator (spec section 6): bcrypt is external and is
modelled as an injective digest function. -/
def bcryptHash (plain : String) : String :=
  "$2b$12$" ++ plain

/-- Collaborator comparison `bcrypt.compare(plain, digest)`. -/
def bcryptCompare (plain digest : String) : Bool :=
  decide (digest = bcryptHash plain)

/-- Lifecycle hook `User.hashPassword` (entities/User.ts, BeforeInsert and
BeforeUpdate): `if (this.password && this.password.length < 60)` the password
is bcrypt-hashed, otherwise it is left untouched. String length is the
JavaScript UTF-16 length; for the ASCII passwords considered here it agrees
with `String.length`. -/
def User.hashPassword (u : User) : User :=
  if u.password ≠ "" ∧ u.password.length < 60 then
    { u with password := bcryptHash u.password }
  else u

/-- Method `User.validatePassword` (bcrypt comparison against the stored
digest). -/
def User.validatePassword (u : User) (password : String) : Bool :=
  bcryptCompare password u.password

/-- Payload signed into every token (`TokenService.createTokenPayload`,
part of TokenService). Note that it has no `jti` member. -/
structure TokenPayload where
  userId : String
  email : String
  fullName : String
  userName : String
  role : Option String
  deriving DecidableEq, Repr

/-- Signed JWT, identified with its signing data (see the file comment). -/
structure Jwt where
  payload : TokenPayload
  secret : String
  exp : Millis
  deriving DecidableEq, Repr

/-- JavaScript member access `payload.jti` as performed by the controllers:
`TokenPayload` has no `jti` field, so the access evaluates to `undefined`
(modelled as `none`; the value would be used as a token-column criterion,
hence the type). -/
def TokenPayload.jti (_ : TokenPayload) : Option Jwt :=
  none

/-- `jwt.sign(payload, secret, \x7b expiresIn: ttlSeconds \x7d)`. -/
def jwtSign (payload : TokenPayload) (secret : String) (now : Millis)
    (ttlSeconds : Nat) : Jwt :=
  ⟨payload, secret, now + ttlSeconds * 1000⟩

/-- `jwt.verify(token, secret)`: succeeds exactly when the signing secret
matches and the token is unexpired at the verification clock. -/
def jwtVerify (t : Jwt) (secret : String) (now : Millis) : Option TokenPayload :=
  if t.secret = secret ∧ now < t.exp then some t.payload else none

/-- Environment configuration read by `TokenService`: JWT_SECRET is assumed
set (the service throws otherwise); JWT_REFRESH_SECRET may be unset, in which
case JWT_SECRET is used as the refresh secret. -/
structure Config where
  jwtSecret : String
  jwtRefreshSecret : Option String
  deriving DecidableEq, Repr

/-- `process.env.JWT_REFRESH_SECRET || process.env.JWT_SECRET`. -/
def Config.refreshSecret (cfg : Config) : String :=
  cfg.jwtRefreshSecret.getD cfg.jwtSecret

/-- `TokenService.generateAccessToken`: 24 hours, signed with JWT_SECRET. -/
def TokenService.generateAccessToken (cfg : Config) (p : TokenPayload)
    (now : Millis) : Jwt :=
  jwtSign p cfg.jwtSecret now (60 * 60 * 24)

/-- `TokenService.generateRefreshToken`: 90 days, signed with the refresh
secret. -/
def TokenService.generateRefreshToken (cfg : Config) (p : TokenPayload)
    (now : Millis) : Jwt :=
  jwtSign p cfg.refreshSecret now (60 * 60 * 24 * 90)

/-- `TokenService.generatePasswordResetToken`: 1 hour, signed with JWT_SECRET
(the same secret as access tokens, with no kind discriminator in the
payload). -/
def TokenService.generatePasswordResetToken (cfg : Config) (p : TokenPayload)
    (now : Millis) : Jwt :=
  jwtSign p cfg.jwtSecret now (60 * 60)

/-- `TokenService.verifyAccessToken`. -/
def TokenService.verifyAccessToken (cfg : Config) (t : Jwt) (now : Millis) :
    Except JsError TokenPayload :=
  match jwtVerify t cfg.jwtSecret now with
  | some p => .ok p
  | none => .error (createUnauthorizedError "Invalid access token")

/-- `TokenService.verifyRefreshToken`. -/
def TokenService.verifyRefreshToken (cfg : Config) (t : Jwt) (now : Millis) :
    Except JsError TokenPayload :=
  match jwtVerify t cfg.refreshSecret now with
  | some p => .ok p
  | none => .error (createUnauthorizedError "Invalid refresh token")

/-- `TokenService.verifyPasswordResetToken`. -/
def TokenService.verifyPasswordResetToken (cfg : Config) (t : Jwt)
    (now : Millis) : Except JsError TokenPayload :=
  match jwtVerify t cfg.jwtSecret now with
  | some p => .ok p
  | none => .error (createUnauthorizedError "Invalid or expired password reset token")

/-- `TokenService.verifyJWT` (backward compatibility, defaults to the access
token check). -/
def TokenService.verifyJWT (cfg : Config) (t : Jwt) (now : Millis) :
    Except JsError TokenPayload :=
  TokenService.verifyAccessToken cfg t now

/-- `TokenService.createTokenPayload`. -/
def TokenService.createTokenPayload (u : User) : TokenPayload :=
  ⟨u.id, u.email, u.fullName, u.userName, u.role⟩

/-- Ledger row (entities/Token.ts plus the verified_at migration). Row ids
are modelled by the insertion counter; the token column (a serialized JWT
string in the database) is modelled as `Jwt`. -/
structure Token where
  id : Nat
  token_type : TokenKind
  token_expire : Millis
  token : Jwt
  verified_at : Option Millis
  userId : String
  deriving DecidableEq, Repr

/-- Database state: the token table, the user table and a fresh-row-id
counter. -/
structure Db where
  tokens : List Token
  users : List User
  nextId : Nat
  deriving DecidableEq, Repr

/-- TypeORM where-clause over token rows. The token criterion is optional
because the controllers pass `payload.jti`, which is `undefined`; TypeORM
drops undefined-valued keys from a where clause and matches on the remaining
criteria. -/
def tokenWhere (tokCrit : Option Jwt) (kind : TokenKind)
    (userCrit : Option String) (r : Token) : Bool :=
  (match tokCrit with
   | none => true
   | some t => decide (r.token = t)) &&
  decide (r.token_type = kind) &&
  (match userCrit with
   | none => true
   | some uid => decide (r.userId = uid))

/-- `TokenRepository.findRefreshToken`. -/
def TokenRepository.findRefreshToken (db : Db) (t : Jwt) : Option Token :=
  db.tokens.find? (tokenWhere (some t) .REFRESH none)

/-- `TokenRepository.invalidateUserRefreshTokens`: deletes every REFRESH row
of the given user. -/
def TokenRepository.invalidateUserRefreshTokens (db : Db) (userId : String) : Db :=
  { db with
    tokens := db.tokens.filter (fun r => !(tokenWhere none .REFRESH (some userId) r)) }

/-- `TokenRepository.storeRefreshToken`: first invalidates all REFRESH rows
of the user, then inserts the new row. -/
def TokenRepository.storeRefreshToken (db : Db) (u : User) (refreshTok : Jwt)
    (expiresAt : Millis) : Db :=
  let db1 := TokenRepository.invalidateUserRefreshTokens db u.id
  { db1 with
    tokens := db1.tokens ++ [⟨db1.nextId, .REFRESH, expiresAt, refreshTok, none, u.id⟩],
    nextId := db1.nextId + 1 }

/-- `TokenRepository.invalidateRefreshToken`: deletes the REFRESH rows
holding the given token string. -/
def TokenRepository.invalidateRefreshToken (db : Db) (t : Jwt) : Db :=
  { db with
    tokens := db.tokens.filter (fun r => !(tokenWhere (some t) .REFRESH none r)) }

/-- `TokenRepository.isRefreshTokenValid`: the row must exist and satisfy
`token_expire > new Date()`. -/
def TokenRepository.isRefreshTokenValid (db : Db) (t : Jwt) (now : Millis) : Bool :=
  match db.tokens.find? (tokenWhere (some t) .REFRESH none) with
  | none => false
  | some r => decide (now < r.token_expire)

/-- `TokenRepository.storePasswordResetToken`: looks for an existing
RESET_PASSWORD row of the user; if found, overwrites its token and expiry and
clears verified_at; otherwise inserts a fresh RESET_PASSWORD row. -/
def TokenRepository.storePasswordResetToken (db : Db) (u : User)
    (resetTok : Jwt) (expiresAt : Millis) : Db :=
  match db.tokens.find? (tokenWhere none .RESET_PASSWORD (some u.id)) with
  | some existing =>
      { db with tokens := db.tokens.map (fun r =>
          if r.id = existing.id then
            { r with token := resetTok, token_expire := expiresAt, verified_at := none }
          else r) }
  | none =>
      { db with
        tokens := db.tokens ++ [⟨db.nextId, .RESET_PASSWORD, expiresAt, resetTok, none, u.id⟩],
        nextId := db.nextId + 1 }

/-- `TokenRepository.storeAdminSetPasswordToken`, translated verbatim: the
existence lookup filters on kind RESET_PASSWORD (exactly as in the source),
while the insert branch creates a row of kind USER_PASSWORD_SET. -/
def TokenRepository.storeAdminSetPasswordToken (db : Db) (u : User)
    (resetTok : Jwt) (expiresAt : Millis) : Db :=
  match db.tokens.find? (tokenWhere none .RESET_PASSWORD (some u.id)) with
  | some existing =>
      { db with tokens := db.tokens.map (fun r =>
          if r.id = existing.id then
            { r with token := resetTok, token_expire := expiresAt, verified_at := none }
          else r) }
  | none =>
      { db with
        tokens := db.tokens ++ [⟨db.nextId, .USER_PASSWORD_SET, expiresAt, resetTok, none, u.id⟩],
        nextId := db.nextId + 1 }

/-- `TokenRepository.findPasswordResetToken`: findOne on the token column and
kind RESET_PASSWORD; performs no expiry check. The criterion is optional
because the caller passes `payload.jti`. -/
def TokenRepository.findPasswordResetToken (db : Db) (tokCrit : Option Jwt) :
    Option Token :=
  db.tokens.find? (tokenWhere tokCrit .RESET_PASSWORD none)

/-- `TokenRepository.findAndVerifyPasswordResetToken`: findOne on the token
column, then require the owning user to match and `token_expire > now`
strictly. -/
def TokenRepository.findAndVerifyPasswordResetToken (db : Db)
    (jti : Option Jwt) (userId : String) (now : Millis) : Option Token :=
  match db.tokens.find? (tokenWhere jti .RESET_PASSWORD none) with
  | none => none
  | some r =>
    if r.userId ≠ userId then none
    else if r.token_expire ≤ now then none
    else some r

/-- `TokenRepository.updateToken` as used by the controllers: both call
sites update exactly the verified_at column of the row with the given id. -/
def TokenRepository.updateToken (db : Db) (tokenId : Nat)
    (newVerifiedAt : Option Millis) : Db :=
  { db with tokens := db.tokens.map (fun r =>
      if r.id = tokenId then { r with verified_at := newVerifiedAt } else r) }

/-- `TokenDatabaseService.findAndVerifyPasswordResetToken`: maps a missing
row to a generic error and rejects rows whose verified_at is already set. -/
def TokenDatabaseService.findAndVerifyPasswordResetToken (db : Db)
    (jti : Option Jwt) (userId : String) (now : Millis) : Except JsError Token :=
  match TokenRepository.findAndVerifyPasswordResetToken db jti userId now with
  | none => .error (plainError "Invalid or expired token")
  | some r =>
    if r.verified_at.isSome then .error (plainError "Token has already been verified")
    else .ok r

/-- `UserRepository.findById`. -/
def UserRepository.findById (db : Db) (id : String) : Option User :=
  db.users.find? (fun u => decide (u.id = id))

/-- `UserRepository.findByEmail`. -/
def UserRepository.findByEmail (db : Db) (email : String) : Option User :=
  db.users.find? (fun u => decide (u.email = email))

/-- `UserRepository.findByEmailAndPassword`: findOne by email, then bcrypt
comparison. -/
def UserRepository.findByEmailAndPassword (db : Db) (email password : String) :
    Option User :=
  match UserRepository.findByEmail db email with
  | none => none
  | some u => if u.validatePassword password then some u else none

/-- `UserRepository.update` specialised to the password update performed by
`resetPassword`: load the user, assign the new password and save, which runs
the `hashPassword` BeforeUpdate hook. -/
def UserRepository.update (db : Db) (id : String) (newPassword : String) :
    Option User × Db :=
  match UserRepository.findById db id with
  | none => (none, db)
  | some u =>
    let u1 := User.hashPassword { u with password := newPassword }
    (some u1, { db with users := db.users.map (fun v => if v.id = id then u1 else v) })

/-- `UserService.updateUser` (delegates to the repository). -/
def UserService.updateUser (db : Db) (id : String) (newPassword : String) :
    Option User × Db :=
  UserRepository.update db id newPassword

/-- `UserService.getUserById`. -/
def UserService.getUserById (db : Db) (id : String) : Option User :=
  UserRepository.findById db id

/-- `UserService.loginUser`: absent user or failed password comparison and
unverified accounts are rejected with 401 errors. -/
def UserService.loginUser (db : Db) (email password : String) :
    Except JsError User :=
  match UserRepository.findByEmailAndPassword db email password with
  | none => .error (createUnauthorizedError "Invalid email or password")
  | some u =>
    if !u.isVerified then .error (createUnauthorizedError "User account is deactivated")
    else .ok u

/-- `UserService.validateUserForPasswordReset`: a missing user yields null
(no error), while an existing unverified user makes the method throw a 401
error. -/
def UserService.validateUserForPasswordReset (db : Db) (email : String) :
    Except JsError (Option User) :=
  match UserRepository.findByEmail db email with
  | none => .ok none
  | some u =>
    if !u.isVerified then .error (createUnauthorizedError "Account is not verified")
    else .ok (some u)

/-- `PasswordResetTokenService.generateAndStoreResetToken`: signs a reset
token over `createTokenPayload user` and stores that signed token itself as
the row token column, with a one-hour ledger expiry (`setHours(+1)`,
modelled as +3600000 ms). -/
def PasswordResetTokenService.generateAndStoreResetToken (cfg : Config)
    (db : Db) (u : User) (now : Millis) : Jwt × Db :=
  let payload := TokenService.createTokenPayload u
  let resetTok := TokenService.generatePasswordResetToken cfg payload now
  let expiry := now + 60 * 60 * 1000
  (resetTok, TokenRepository.storePasswordResetToken db u resetTok expiry)

/-- Generic response of `forgotPassword`. -/
def genericForgotMessage : String :=
  "If the email exists, a password reset link has been sent."

/-- `UserController.forgotPassword`: validates the user, always prepares the
generic message, and only for a validated user generates and stores a reset
token and invokes the Mailer. The ok result carries the response message, the
list of Mailer invocations (recipient, signed token) and the post state. -/
def UserController.forgotPassword (cfg : Config) (db : Db) (email : String)
    (now : Millis) : Except JsError (String × List (String × Jwt) × Db) :=
  match UserService.validateUserForPasswordReset db email with
  | .error e => .error e
  | .ok none => .ok (genericForgotMessage, [], db)
  | .ok (some u) =>
    let r := PasswordResetTokenService.generateAndStoreResetToken cfg db u now
    .ok (genericForgotMessage, [(u.email, r.1)], r.2)

/-- Result of a successful login. -/
structure LoginOk where
  user : User
  accessToken : Jwt
  refreshTok : Jwt
  deriving DecidableEq, Repr

/-- `UserController.login`: authenticates, issues the token pair, and stores
the refresh token with a 90-day database expiry. -/
def UserController.login (cfg : Config) (db : Db) (email password : String)
    (now : Millis) : Except JsError (LoginOk × Db) :=
  match UserService.loginUser db email password with
  | .error e => .error e
  | .ok u =>
    let payload := TokenService.createTokenPayload u
    let accessToken := TokenService.generateAccessToken cfg payload now
    let refreshTok := TokenService.generateRefreshToken cfg payload now
    let expiry := now + 90 * 24 * 60 * 60 * 1000
    let db1 := TokenRepository.storeRefreshToken db u refreshTok expiry
    .ok (⟨u, accessToken, refreshTok⟩, db1)

/-- Result of a successful refresh. -/
structure RefreshOk where
  accessToken : Jwt
  user : User
  deriving DecidableEq, Repr

/-- `UserController.refreshToken`: requires the token in the body, verifies
its signature and expiry, requires the ledger row to exist and be unexpired,
re-resolves the user (404 if missing), and issues a new access token only.
The post state is returned alongside the result. -/
def UserController.refreshToken (cfg : Config) (db : Db)
    (refreshTok : Option Jwt) (now : Millis) : Except JsError (RefreshOk × Db) :=
  match refreshTok with
  | none => .error (createBadRequestError "Refresh token is required")
  | some t =>
    match TokenService.verifyRefreshToken cfg t now with
    | .error e => .error e
    | .ok decoded =>
      match TokenRepository.findRefreshToken db t with
      | none => .error (createUnauthorizedError "Invalid or expired refresh token")
      | some _ =>
        if !(TokenRepository.isRefreshTokenValid db t now) then
          .error (createUnauthorizedError "Invalid or expired refresh token")
        else
          match UserService.getUserById db decoded.userId with
          | none => .error (createNotFoundError "User not found")
          | some u =>
            .ok (⟨TokenService.generateAccessToken cfg (TokenService.createTokenPayload u) now, u⟩, db)

/-- `UserController.logout`: best-effort delete of the ledger row; never an
error. -/
def UserController.logout (db : Db) (refreshTok : Option Jwt) : String × Db :=
  match refreshTok with
  | none => ("Logged out successfully", db)
  | some t => ("Logged out successfully", TokenRepository.invalidateRefreshToken db t)

/-- `UserController.verifyResetPasswordToken`: codec verification, ledger
verification via `TokenDatabaseService`, then `verified_at := now`. -/
def UserController.verifyResetPasswordToken (cfg : Config) (db : Db) (tok : Jwt)
    (now : Millis) : Except JsError (String × Db) :=
  match TokenService.verifyPasswordResetToken cfg tok now with
  | .error e => .error e
  | .ok payload =>
    match TokenDatabaseService.findAndVerifyPasswordResetToken db payload.jti payload.userId now with
    | .error e => .error e
    | .ok row =>
      .ok ("Token verified successfully", TokenRepository.updateToken db row.id (some now))

/-- `UserController.resetPassword`: password/confirm equality, codec
verification, ledger lookup by `payload.jti` (no expiry check on this path),
requirement that verified_at is set, then password update (with re-hashing
via the entity hook) and `verified_at := null`. -/
def UserController.resetPassword (cfg : Config) (db : Db) (tok : Jwt)
    (password confirmPassword : String) (now : Millis) :
    Except JsError (String × Db) :=
  if password ≠ confirmPassword then
    .error (createBadRequestError "New password and confirm password do not match")
  else
    match TokenService.verifyPasswordResetToken cfg tok now with
    | .error e => .error e
    | .ok payload =>
      match TokenRepository.findPasswordResetToken db payload.jti with
      | none => .error (createBadRequestError "Invalid or expired password reset token")
      | some row =>
        if row.verified_at.isNone then
          .error (createBadRequestError "Invalid or expired password reset token")
        else
          let db1 := (UserService.updateUser db row.userId password).2
          let db2 := TokenRepository.updateToken db1 row.id none
          .ok ("Password reset successfully", db2)

/-- Authorization header of a request, as inspected by the auth gate. -/
inductive AuthHeader
  | missing
  | malformed
  | bearer (tok : Jwt)
  deriving DecidableEq, Repr

/-- Outcome of the auth gate. -/
inductive AuthOutcome
  | ok (u : User)
  | reject (status : Nat) (message : String)
  deriving DecidableEq, Repr

/-- `authMiddleware` (middleware/auth.ts): a missing or non-Bearer header is
rejected immediately without a codec call; otherwise the token is verified as
an access token via `verifyJWT` and the embedded user id resolved; any
failure in that block is caught and mapped to a 401 response. -/
def authMiddleware (cfg : Config) (db : Db) (h : AuthHeader) (now : Millis) :
    AuthOutcome :=
  match h with
  | .missing => .reject 401 "Access token required"
  | .malformed => .reject 401 "Access token required"
  | .bearer t =>
    match TokenService.verifyJWT cfg t now with
    | .error _ => .reject 401 "Invalid or expired token"
    | .ok decoded =>
      match UserService.getUserById db decoded.userId with
      | none => .reject 401 "Invalid or expired token"
      | some u => .ok u

/-! Concrete sample data shared by the evaluation theorems and witnesses. -/

/-- Sample configuration: JWT_SECRET set, JWT_REFRESH_SECRET unset. -/
def cfgS : Config := ⟨"s3cret", none⟩

/-- Sample verified user. -/
def alice : User := ⟨"u1", "a@x.com", bcryptHash "OldPass1", "A A", "aa", true, none⟩

/-- Sample existing-but-unverified user. -/
def bob : User := ⟨"u2", "real-but-unverified@x.com", bcryptHash "BobPass1", "B B", "bb", false, none⟩

/-- Token payload of the sample verified user. -/
def pAlice : TokenPayload := TokenService.createTokenPayload alice

/-- The reset token `forgotPassword` signs for the sample user at time 0. -/
def rtS : Jwt := ⟨pAlice, "s3cret", 3600000⟩

/-- The ledger row `forgotPassword` stores for the sample user at time 0. -/
def rowA : Token := ⟨0, .RESET_PASSWORD, 3600000, rtS, none, "u1"⟩

/-- State after the sample `forgotPassword` issuance. -/
def dbA : Db := ⟨[rowA], [alice], 1⟩

/-- State after verifying the sample reset token at time 1000. -/
def dbB : Db := ⟨[{rowA with verified_at := some 1000}], [alice], 1⟩

/-- The sample user after the password reset to NewPass1. -/
def aliceNew : User := {alice with password := bcryptHash "NewPass1"}

/-- State after consuming the sample reset token at time 2000. -/
def dbC : Db := ⟨[rowA], [aliceNew], 1⟩

/-- State after re-verifying the already-consumed sample token at time 3000. -/
def dbD : Db := ⟨[{rowA with verified_at := some 3000}], [aliceNew], 1⟩

/-- Payload naming a user id resolved by no user row. -/
def pGhost : TokenPayload := ⟨"ghost", "g@x.com", "G G", "gg", none⟩

/-- Signature-valid unexpired refresh token for the missing user. -/
def rtGhost : Jwt := ⟨pGhost, "s3cret", 1000000⟩

/-- State holding a live ledger row for the missing-user refresh token. -/
def dbGhost : Db := ⟨[⟨0, .REFRESH, 1000000, rtGhost, none, "ghost"⟩], [], 1⟩

/-- Signature-valid unexpired refresh token for the sample user. -/
def rtRA : Jwt := ⟨pAlice, "s3cret", 1000000⟩

/-- Ledger row for the sample refresh token. -/
def rowRA : Token := ⟨0, .REFRESH, 1000000, rtRA, none, "u1"⟩

/-- State holding a live refresh row for the sample user. -/
def dbRA : Db := ⟨[rowRA], [alice], 1⟩

/-- First admin-set-password token for the sample user. -/
def rtAdm1 : Jwt := ⟨pAlice, "s3cret", 5000⟩

/-- Second admin-set-password token for the sample user. -/
def rtAdm2 : Jwt := ⟨pAlice, "s3cret", 9000⟩

/-- Ledger-expired reset row whose verified_at is still set. -/
def rowExp : Token := ⟨0, .RESET_PASSWORD, 1000, rtS, some 500, "u1"⟩

/-- State holding the ledger-expired verified reset row. -/
def dbExp : Db := ⟨[rowExp], [alice], 1⟩

/-- State with the sample verified and unverified users and an empty ledger. -/
def dbC1 : Db := ⟨[], [alice, bob], 0⟩

/-- Sixty-character password literal used by the hashing-guard witness. -/
def p60 : String :=
  "abcdefghij0123456789abcdefghij0123456789abcdefghij0123456789"


/-- C1. The generic-message anti-enumeration property of `forgotPassword`
fails for an existing-but-unverified user: a nonexistent email and a
verified email both yield the generic success message (with the Mailer
invoked only for the verified one), but a real-but-unverified email makes
`forgotPassword` throw a 401 error instead of returning the message. -/
theorem C1_forgotPassword_unverified_email_raises :
    UserController.forgotPassword cfgS dbC1 "nonexistent@x.com" 0
      = .ok (genericForgotMessage, [], dbC1)
    ∧ UserController.forgotPassword cfgS dbC1 "a@x.com" 0
      = .ok (genericForgotMessage, [("a@x.com", rtS)], ⟨[rowA], [alice, bob], 1⟩)
    ∧ UserController.forgotPassword cfgS dbC1 "real-but-unverified@x.com" 0
      = .error (createUnauthorizedError "Account is not verified") := by
  refine ⟨rfl, rfl, rfl⟩

/-- C2 counterexample. Trace refuting the claim that only a brand-new
`forgotPassword` issuance can make verified_at non-null again after
consumption: after issue, verify and consume, a second
`verifyResetPasswordToken` call with the same signed token succeeds and
re-sets verified_at (the row was never deleted), and the consumed token can
then be consumed again. -/
theorem C2_reverify_after_consumption :
    UserController.forgotPassword cfgS ⟨[], [alice], 0⟩ "a@x.com" 0
      = .ok (genericForgotMessage, [("a@x.com", rtS)], dbA)
    ∧ UserController.verifyResetPasswordToken cfgS dbA rtS 1000
      = .ok ("Token verified successfully", dbB)
    ∧ UserController.resetPassword cfgS dbB rtS "NewPass1" "NewPass1" 2000
      = .ok ("Password reset successfully", dbC)
    ∧ dbC.tokens.map Token.verified_at = [none]
    ∧ UserController.verifyResetPasswordToken cfgS dbC rtS 3000
      = .ok ("Token verified successfully", dbD)
    ∧ dbD.tokens.map Token.verified_at = [some 3000]
    ∧ (UserController.resetPassword cfgS dbD rtS "NewPass2" "NewPass2" 3500).isOk = true := by
  refine ⟨rfl, rfl, rfl, rfl, rfl, rfl, rfl⟩

/-- C3 counterexample. A signature-valid, unexpired refresh token whose
ledger row is live but whose embedded user id no longer resolves makes
`refreshToken` fail with the 404 NotFoundError, not with an
AuthenticationError (401). -/
theorem C3_missing_user_is_not_found_error :
    UserController.refreshToken cfgS dbGhost (some rtGhost) 10
      = .error (createNotFoundError "User not found")
    ∧ (createNotFoundError "User not found").statusCode = some 404 := by
  refine ⟨rfl, rfl⟩

/-- C4. `storeAdminSetPasswordToken` does not replace the admin-set-password
row of the user: its existence lookup filters on kind RESET_PASSWORD while
its insert branch creates kind USER_PASSWORD_SET, so two consecutive calls
for the same user leave two USER_PASSWORD_SET rows in the ledger. -/
theorem C4_admin_set_password_rows_accumulate :
    (TokenRepository.storeAdminSetPasswordToken
        (TokenRepository.storeAdminSetPasswordToken ⟨[], [alice], 0⟩ alice rtAdm1 5000)
        alice rtAdm2 9000).tokens.map (fun r => (r.token_type, r.userId))
      = [(TokenKind.USER_PASSWORD_SET, "u1"), (TokenKind.USER_PASSWORD_SET, "u1")] := by
  rfl

/-- C5. The issued password-reset token is signed over `createTokenPayload`
only, which has no jti member (the controller access `payload.jti` yields
undefined), and the ledger row stores the raw signed token itself as its
token column, not a jti. -/
theorem C5_raw_token_persisted_no_jti :
    (PasswordResetTokenService.generateAndStoreResetToken cfgS ⟨[], [alice], 0⟩ alice 0).1.payload
      = TokenService.createTokenPayload alice
    ∧ TokenPayload.jti (PasswordResetTokenService.generateAndStoreResetToken cfgS ⟨[], [alice], 0⟩ alice 0).1.payload
      = none
    ∧ (PasswordResetTokenService.generateAndStoreResetToken cfgS ⟨[], [alice], 0⟩ alice 0).2.tokens.map Token.token
      = [(PasswordResetTokenService.generateAndStoreResetToken cfgS ⟨[], [alice], 0⟩ alice 0).1] := by
  refine ⟨rfl, rfl, rfl⟩

/-- C7 counterexample. On the reset-consumption path a ledger-expired row is
not treated as absent: with a row whose token_expire is in the past but whose
verified_at is set, `resetPassword` succeeds, while with the row absent it
fails with the invalid-or-expired error. -/
theorem C7_consumption_ignores_row_expiry :
    rowExp.token_expire ≤ 5000
    ∧ (UserController.resetPassword cfgS dbExp rtS "NewPass1" "NewPass1" 5000).isOk = true
    ∧ UserController.resetPassword cfgS ⟨[], [alice], 1⟩ rtS "NewPass1" "NewPass1" 5000
      = .error (createBadRequestError "Invalid or expired password reset token") := by
  refine ⟨by decide, rfl, rfl⟩

/-- Deleted rows can no longer be found by the deletion criterion. -/
lemma find_of_filter_not (p : Token → Bool) (l : List Token) :
    (l.filter (fun r => !(p r))).find? p = none := by
  rw [List.find?_eq_none]
  intro x hx
  rcases List.mem_filter.mp hx with ⟨_, hnp⟩
  simp only [Bool.not_eq_true'] at hnp
  simp [hnp]

/-- Password updates touch only the user table. -/
lemma updateUser_tokens (db : Db) (id pw : String) :
    (UserService.updateUser db id pw).2.tokens = db.tokens := by
  unfold UserService.updateUser UserRepository.update
  cases h : UserRepository.findById db id <;> simp [h]

/-- Refresh-token storage touches only the token table. -/
lemma storeRefresh_users (db : Db) (u : User) (t : Jwt) (e : Millis) :
    (TokenRepository.storeRefreshToken db u t e).users = db.users := rfl

/-- Login reads only the user table. -/
lemma loginUser_congr_users (db1 db2 : Db) (hu : db1.users = db2.users)
    (email pw : String) :
    UserService.loginUser db1 email pw = UserService.loginUser db2 email pw := by
  unfold UserService.loginUser UserRepository.findByEmailAndPassword UserRepository.findByEmail
  rw [hu]

/-- The ledger validity check re-runs the same findOne as the row lookup. -/
lemma isValid_of_find (db : Db) (t : Jwt) (now : Millis) (row : Token)
    (h : TokenRepository.findRefreshToken db t = some row) :
    TokenRepository.isRefreshTokenValid db t now = decide (now < row.token_expire) := by
  unfold TokenRepository.isRefreshTokenValid
  unfold TokenRepository.findRefreshToken at h
  rw [h]

/-- Unfolding of `refreshToken` on a present token. -/
lemma refreshToken_some (cfg : Config) (db : Db) (t : Jwt) (now : Millis) :
    UserController.refreshToken cfg db (some t) now =
      (match TokenService.verifyRefreshToken cfg t now with
       | .error e => .error e
       | .ok decoded =>
         match TokenRepository.findRefreshToken db t with
         | none => .error (createUnauthorizedError "Invalid or expired refresh token")
         | some _ =>
           if !(TokenRepository.isRefreshTokenValid db t now) then
             .error (createUnauthorizedError "Invalid or expired refresh token")
           else
             match UserService.getUserById db decoded.userId with
             | none => .error (createNotFoundError "User not found")
             | some u =>
               .ok (⟨TokenService.generateAccessToken cfg (TokenService.createTokenPayload u) now, u⟩, db)) := rfl

/-- Closed form of the refresh-token codec check. -/
lemma verifyRefresh_eq (cfg : Config) (t : Jwt) (now : Millis) :
    TokenService.verifyRefreshToken cfg t now =
      (if t.secret = cfg.refreshSecret ∧ now < t.exp then .ok t.payload
       else .error (createUnauthorizedError "Invalid refresh token")) := by
  unfold TokenService.verifyRefreshToken jwtVerify
  by_cases h : t.secret = cfg.refreshSecret ∧ now < t.exp <;> simp [h]

/-- When the ledger row is gone, `refreshToken` rejects with a 401 error. -/
lemma refresh_fails_of_find_none (cfg : Config) (db : Db) (t : Jwt) (now : Millis)
    (h : TokenRepository.findRefreshToken db t = none) :
    ∃ m, UserController.refreshToken cfg db (some t) now
      = .error (createUnauthorizedError m) := by
  rw [refreshToken_some, verifyRefresh_eq]
  by_cases hv : t.secret = cfg.refreshSecret ∧ now < t.exp
  · exact ⟨"Invalid or expired refresh token", by simp [hv, h]⟩
  · exact ⟨"Invalid refresh token", by simp [hv]⟩

/-- Success characterization of `refreshToken`: the call succeeds, leaving the
state unchanged, exactly when the signature and expiry verify, the ledger row
exists and is unexpired, and the embedded user resolves. -/
lemma refresh_ok_iff (cfg : Config) (db : Db) (t : Jwt) (now : Millis) :
    (∃ res, UserController.refreshToken cfg db (some t) now = (.ok (res, db))) ↔
      (t.secret = cfg.refreshSecret ∧ now < t.exp
        ∧ (∃ row, TokenRepository.findRefreshToken db t = some row ∧ now < row.token_expire)
        ∧ ∃ u, UserRepository.findById db t.payload.userId = some u) := by
  constructor
  · rintro ⟨res, hres⟩
    rw [refreshToken_some, verifyRefresh_eq] at hres
    by_cases hv : t.secret = cfg.refreshSecret ∧ now < t.exp
    · rw [if_pos hv] at hres
      dsimp only at hres
      cases hf : TokenRepository.findRefreshToken db t with
      | none =>
        rw [hf] at hres
        dsimp only at hres
        cases hres
      | some row =>
        rw [hf, isValid_of_find db t now row hf] at hres
        dsimp only at hres
        by_cases he : now < row.token_expire
        · rw [if_neg (show ¬((!decide (now < row.token_expire)) = true) by simp [he])] at hres
          cases hu : UserService.getUserById db t.payload.userId with
          | none =>
            rw [hu] at hres
            cases hres
          | some u =>
            exact ⟨hv.1, hv.2, ⟨row, rfl, he⟩, ⟨u, hu⟩⟩
        · rw [if_pos (show (!decide (now < row.token_expire)) = true by simp [he])] at hres
          cases hres
    · rw [if_neg hv] at hres
      cases hres
  · rintro ⟨hsec, hexp, ⟨row, hf, he⟩, ⟨u, hu⟩⟩
    refine ⟨⟨TokenService.generateAccessToken cfg (TokenService.createTokenPayload u) now, u⟩, ?_⟩
    rw [refreshToken_some, verifyRefresh_eq, if_pos ⟨hsec, hexp⟩]
    dsimp only
    rw [hf, isValid_of_find db t now row hf]
    dsimp only
    rw [if_neg (show ¬((!decide (now < row.token_expire)) = true) by simp [he])]
    rw [show UserService.getUserById db t.payload.userId = some u from hu]

/-- Classification of `refreshToken` failures on a present token: every
failure is a 401 error except the missing-user case, which is the 404
NotFoundError. -/
lemma refresh_error_cases (cfg : Config) (db : Db) (t : Jwt) (now : Millis)
    (e : JsError) (h : UserController.refreshToken cfg db (some t) now = .error e) :
    e.statusCode = some 401 ∨ e = createNotFoundError "User not found" := by
  rw [refreshToken_some, verifyRefresh_eq] at h
  by_cases hv : t.secret = cfg.refreshSecret ∧ now < t.exp
  · rw [if_pos hv] at h
    dsimp only at h
    cases hf : TokenRepository.findRefreshToken db t with
    | none =>
      rw [hf] at h
      dsimp only at h
      cases h
      exact Or.inl rfl
    | some row =>
      rw [hf] at h
      dsimp only at h
      by_cases hb : (!TokenRepository.isRefreshTokenValid db t now) = true
      · rw [if_pos hb] at h
        cases h
        exact Or.inl rfl
      · rw [if_neg hb] at h
        cases hu : UserService.getUserById db t.payload.userId with
        | none =>
          rw [hu] at h
          cases h
          exact Or.inr rfl
        | some u =>
          rw [hu] at h
          cases h
  · rw [if_neg hv] at h
    cases h
    exact Or.inl rfl

/-- After storing a fresh refresh token for a user, no earlier token whose
refresh rows all belonged to that user can still be found. -/
lemma storeRefresh_no_stale (db : Db) (u : User) (t1 t2 : Jwt) (e : Millis)
    (hne : t1 ≠ t2)
    (hclean : ∀ r ∈ db.tokens, tokenWhere (some t1) .REFRESH none r = true → r.userId = u.id) :
    TokenRepository.findRefreshToken (TokenRepository.storeRefreshToken db u t2 e) t1 = none := by
  unfold TokenRepository.findRefreshToken TokenRepository.storeRefreshToken
    TokenRepository.invalidateUserRefreshTokens
  rw [List.find?_eq_none]
  intro r hr
  rcases List.mem_append.mp hr with hkeep | hnew
  · rcases List.mem_filter.mp hkeep with ⟨hmem, hq⟩
    intro hmatch
    have huid : r.userId = u.id := hclean r hmem hmatch
    have hkind : r.token_type = TokenKind.REFRESH := by
      have := hmatch
      unfold tokenWhere at this
      simp only [Bool.and_eq_true, decide_eq_true_eq] at this
      exact this.1.2
    unfold tokenWhere at hq
    simp [hkind, huid] at hq
  · intro hmatch
    have : r.token = t1 := by
      unfold tokenWhere at hmatch
      simp only [Bool.and_eq_true, decide_eq_true_eq] at hmatch
      exact hmatch.1.1
    rcases List.mem_singleton.mp hnew with rfl
    exact hne (show t2 = t1 from this).symm

/-- Token-table shape after a refresh-token store. -/
lemma storeRefresh_tokens (db : Db) (u : User) (t : Jwt) (e : Millis) :
    (TokenRepository.storeRefreshToken db u t e).tokens
      = db.tokens.filter (fun r => !(tokenWhere none .REFRESH (some u.id) r))
        ++ [⟨db.nextId, .REFRESH, e, t, none, u.id⟩] := rfl

/-- Filtering by a predicate right after keeping its complement is empty. -/
lemma filter_pred_not (p : Token → Bool) (l : List Token) :
    (l.filter (fun r => !(p r))).filter p = [] := by
  induction l with
  | nil => rfl
  | cons a l ih =>
    by_cases h : p a = true
    · simp [List.filter_cons, h, ih]
    · simp [List.filter_cons, h, ih]

/-- After `storeRefreshToken`, the REFRESH rows of the user are exactly the
new row. -/
lemma storeRefresh_single_row (db : Db) (u : User) (t : Jwt) (e : Millis) :
    (TokenRepository.storeRefreshToken db u t e).tokens.filter
        (tokenWhere none .REFRESH (some u.id))
      = [⟨db.nextId, .REFRESH, e, t, none, u.id⟩] := by
  rw [storeRefresh_tokens, List.filter_append, filter_pred_not]
  simp [tokenWhere]

/-- Decomposition of a successful login. -/
lemma login_ok_elim (cfg : Config) (db : Db) (email pw : String) (now : Millis)
    (res : LoginOk) (db1 : Db)
    (h : UserController.login cfg db email pw now = .ok (res, db1)) :
    ∃ u, UserService.loginUser db email pw = .ok u
      ∧ res = ⟨u, TokenService.generateAccessToken cfg (TokenService.createTokenPayload u) now,
               TokenService.generateRefreshToken cfg (TokenService.createTokenPayload u) now⟩
      ∧ db1 = TokenRepository.storeRefreshToken db u
          (TokenService.generateRefreshToken cfg (TokenService.createTokenPayload u) now)
          (now + 90 * 24 * 60 * 60 * 1000) := by
  unfold UserController.login at h
  cases hu : UserService.loginUser db email pw with
  | error e =>
    rw [hu] at h
    cases h
  | ok u =>
    rw [hu] at h
    dsimp only at h
    injection h with h1
    injection h1 with h2 h3
    exact ⟨u, rfl, h2.symm, h3.symm⟩

/-- After a successful refresh, the returned state is the input state. -/
lemma refresh_ok_post (cfg : Config) (db : Db) (t : Jwt) (now : Millis)
    (res : RefreshOk) (dbPost : Db)
    (h : UserController.refreshToken cfg db (some t) now = .ok (res, dbPost)) :
    dbPost = db := by
  rw [refreshToken_some] at h
  cases hv : TokenService.verifyRefreshToken cfg t now with
  | error e =>
    rw [hv] at h
    cases h
  | ok decoded =>
    rw [hv] at h
    dsimp only at h
    cases hf : TokenRepository.findRefreshToken db t with
    | none =>
      rw [hf] at h
      cases h
    | some row =>
      rw [hf] at h
      dsimp only at h
      by_cases hb : (!TokenRepository.isRefreshTokenValid db t now) = true
      · rw [if_pos hb] at h
        cases h
      · rw [if_neg hb] at h
        cases hu : UserService.getUserById db decoded.userId with
        | none =>
          rw [hu] at h
          cases h
        | some u =>
          rw [hu] at h
          injection h with h1
          injection h1 with h2 h3
          exact h3.symm

/-- C3 amended. `refreshToken` succeeds, leaving the ledger unchanged, exactly
when the signature verifies, the token is unexpired, the ledger row for that
literal token string is present and unexpired, and the embedded user still
resolves; every failure is an AuthenticationError (401) except the
missing-user case, which fails with the 404 NotFoundError. -/
theorem C3_refresh_validity (cfg : Config) (db : Db) (t : Jwt) (now : Millis) :
    ((∃ res, UserController.refreshToken cfg db (some t) now = (.ok (res, db))) ↔
      (t.secret = cfg.refreshSecret ∧ now < t.exp
        ∧ (∃ row, TokenRepository.findRefreshToken db t = some row ∧ now < row.token_expire)
        ∧ ∃ u, UserRepository.findById db t.payload.userId = some u))
    ∧ (∀ e, UserController.refreshToken cfg db (some t) now = .error e →
        e.statusCode = some 401 ∨ e = createNotFoundError "User not found") :=
  ⟨refresh_ok_iff cfg db t now, fun e he => refresh_error_cases cfg db t now e he⟩

/-- Witness for C3: a concrete valid refresh call succeeds. -/
theorem C3_refresh_validity_witness :
    ∃ res, UserController.refreshToken cfgS dbRA (some rtRA) 10 = .ok (res, dbRA) :=
  (C3_refresh_validity cfgS dbRA rtRA 10).1.mpr
    ⟨rfl, by decide, ⟨rowRA, rfl, by decide⟩, ⟨alice, rfl⟩⟩

/-- C6. Storing a refresh token leaves exactly one REFRESH row for the user
(the prior one is deleted first), and consequently after a second login for
the same user a refresh call presenting the first login refresh token fails
with a 401 AuthenticationError. -/
theorem C6_second_login_invalidates_first_refresh :
    (∀ (db : Db) (u : User) (t : Jwt) (e : Millis),
        (TokenRepository.storeRefreshToken db u t e).tokens.filter
            (tokenWhere none .REFRESH (some u.id))
          = [⟨db.nextId, .REFRESH, e, t, none, u.id⟩])
    ∧ (∀ (cfg : Config) (db db1 db2 : Db) (email pw : String)
        (now1 now2 now3 : Millis) (res1 res2 : LoginOk),
        UserController.login cfg db email pw now1 = .ok (res1, db1) →
        UserController.login cfg db1 email pw now2 = .ok (res2, db2) →
        res1.refreshTok ≠ res2.refreshTok →
        (∀ r ∈ db.tokens, r.token ≠ res1.refreshTok) →
        ∃ m, UserController.refreshToken cfg db2 (some res1.refreshTok) now3
          = .error (createUnauthorizedError m)) := by
  constructor
  · exact fun db u t e => storeRefresh_single_row db u t e
  · intro cfg db db1 db2 email pw now1 now2 now3 res1 res2 h1 h2 hne hclean
    obtain ⟨u, hu, hres1, hdb1⟩ := login_ok_elim cfg db email pw now1 res1 db1 h1
    obtain ⟨u2, hu2, hres2, hdb2⟩ := login_ok_elim cfg db1 email pw now2 res2 db2 h2
    have husers : db1.users = db.users := by
      rw [hdb1]
      exact storeRefresh_users db u _ _
    have huu : u2 = u := by
      have hcongr := loginUser_congr_users db1 db husers email pw
      rw [hu, hu2] at hcongr
      injection hcongr
    subst huu
    apply refresh_fails_of_find_none
    rw [hdb2]
    apply storeRefresh_no_stale
    · rw [hres2] at hne
      simpa using hne
    · intro r hr hmatch
      have htok : r.token = res1.refreshTok := by
        unfold tokenWhere at hmatch
        simp only [Bool.and_eq_true, decide_eq_true_eq] at hmatch
        exact hmatch.1.1
      rw [hdb1, storeRefresh_tokens] at hr
      rcases List.mem_append.mp hr with hkeep | hnewr
      · rcases List.mem_filter.mp hkeep with ⟨hmem, -⟩
        exact absurd htok (hclean r hmem)
      · rcases List.mem_singleton.mp hnewr with rfl
        rfl

/-- Witness for C6: two concrete logins, then the first refresh token is
rejected. -/
theorem C6_witness :
    ∃ m, UserController.refreshToken cfgS
        ⟨[⟨1, .REFRESH, 7776001000, ⟨pAlice, "s3cret", 7776001000⟩, none, "u1"⟩], [alice], 2⟩
        (some ⟨pAlice, "s3cret", 7776000000⟩) 5000
      = .error (createUnauthorizedError m) :=
  (C6_second_login_invalidates_first_refresh).2 cfgS
    ⟨[], [alice], 0⟩
    ⟨[⟨0, .REFRESH, 7776000000, ⟨pAlice, "s3cret", 7776000000⟩, none, "u1"⟩], [alice], 1⟩
    ⟨[⟨1, .REFRESH, 7776001000, ⟨pAlice, "s3cret", 7776001000⟩, none, "u1"⟩], [alice], 2⟩
    "a@x.com" "OldPass1" 0 1000 5000
    ⟨alice, ⟨pAlice, "s3cret", 86400000⟩, ⟨pAlice, "s3cret", 7776000000⟩⟩
    ⟨alice, ⟨pAlice, "s3cret", 86401000⟩, ⟨pAlice, "s3cret", 7776001000⟩⟩
    rfl rfl (by decide) (by simp)

/-- C8. A successful refresh leaves the state untouched (the refresh token is
not rotated and the ledger row is unchanged), the same token keeps refreshing
at any instant at which both its signature expiry and the ledger expiry are
still in the future, and after a logout with the token the refresh call fails
with a 401 AuthenticationError. -/
theorem C8_refresh_does_not_rotate (cfg : Config) (db : Db) (t : Jwt)
    (now : Millis) (res : RefreshOk) (dbPost : Db)
    (h : UserController.refreshToken cfg db (some t) now = .ok (res, dbPost)) :
    dbPost = db
    ∧ (∀ now2, now2 < t.exp →
        (∀ row, TokenRepository.findRefreshToken db t = some row → now2 < row.token_expire) →
        ∃ res2, UserController.refreshToken cfg db (some t) now2 = .ok (res2, db))
    ∧ (∃ m, UserController.refreshToken cfg (UserController.logout db (some t)).2 (some t) now
        = .error (createUnauthorizedError m)) := by
  have hpost := refresh_ok_post cfg db t now res dbPost h
  have hok : UserController.refreshToken cfg db (some t) now = .ok (res, db) := by
    rw [hpost] at h
    exact h
  refine ⟨hpost, ?_, ?_⟩
  · intro now2 h2exp h2row
    obtain ⟨hsec, -, ⟨row, hf, -⟩, huser⟩ := (refresh_ok_iff cfg db t now).mp ⟨res, hok⟩
    exact (refresh_ok_iff cfg db t now2).mpr ⟨hsec, h2exp, ⟨row, hf, h2row row hf⟩, huser⟩
  · apply refresh_fails_of_find_none
    show TokenRepository.findRefreshToken (TokenRepository.invalidateRefreshToken db t) t = none
    unfold TokenRepository.findRefreshToken TokenRepository.invalidateRefreshToken
    exact find_of_filter_not _ _

/-- Witness for C8: a concrete successful refresh, then the logout branch. -/
theorem C8_witness :
    ∃ m, UserController.refreshToken cfgS (UserController.logout dbRA (some rtRA)).2
        (some rtRA) 10
      = .error (createUnauthorizedError m) :=
  (C8_refresh_does_not_rotate cfgS dbRA rtRA 10
    ⟨⟨pAlice, "s3cret", 86400010⟩, alice⟩ dbRA rfl).2.2

/-- Closed form of the reset-token codec check. -/
lemma verifyReset_eq (cfg : Config) (t : Jwt) (now : Millis) :
    TokenService.verifyPasswordResetToken cfg t now =
      (if t.secret = cfg.jwtSecret ∧ now < t.exp then .ok t.payload
       else .error (createUnauthorizedError "Invalid or expired password reset token")) := by
  unfold TokenService.verifyPasswordResetToken jwtVerify
  by_cases h : t.secret = cfg.jwtSecret ∧ now < t.exp <;> simp [h]

/-- Single reset row states: the consumption-path lookup returns the row. -/
lemma findReset_single (db : Db) (row : Token) (hdb : db.tokens = [row])
    (hkind : row.token_type = .RESET_PASSWORD) :
    TokenRepository.findPasswordResetToken db none = some row := by
  unfold TokenRepository.findPasswordResetToken
  rw [hdb]
  apply List.find?_cons_of_pos
  simp [tokenWhere, hkind]

/-- Shape of a verified_at update. -/
lemma updateToken_tokens (db : Db) (tid : Nat) (v : Option Millis) :
    (TokenRepository.updateToken db tid v).tokens
      = db.tokens.map (fun r => if r.id = tid then { r with verified_at := v } else r) := rfl

/-- A verified_at update on a single-row state rewrites that row. -/
lemma updateToken_single (db : Db) (row : Token) (hdb : db.tokens = [row])
    (v : Option Millis) :
    TokenRepository.updateToken db row.id v
      = { db with tokens := [{ row with verified_at := v }] } := by
  unfold TokenRepository.updateToken
  rw [hdb]
  simp

/-- With a codec-valid token and an unverified ledger row, `resetPassword`
fails with the invalid-or-expired error. -/
lemma resetPassword_unverified (cfg : Config) (db : Db) (t : Jwt) (row : Token)
    (p : String) (now : Millis)
    (hsec : t.secret = cfg.jwtSecret) (hexp : now < t.exp)
    (hfind : TokenRepository.findPasswordResetToken db none = some row)
    (hver : row.verified_at = none) :
    UserController.resetPassword cfg db t p p now
      = .error (createBadRequestError "Invalid or expired password reset token") := by
  unfold UserController.resetPassword
  rw [if_neg (by simp), verifyReset_eq, if_pos ⟨hsec, hexp⟩]
  dsimp only
  rw [show TokenRepository.findPasswordResetToken db t.payload.jti = some row from hfind]
  dsimp only
  rw [hver]
  rfl

/-- With a codec-valid token and a verified ledger row (of any expiry),
`resetPassword` succeeds, updating the user password and clearing
verified_at. -/
lemma resetPassword_verified (cfg : Config) (db : Db) (t : Jwt) (row : Token)
    (p : String) (now v : Millis)
    (hsec : t.secret = cfg.jwtSecret) (hexp : now < t.exp)
    (hfind : TokenRepository.findPasswordResetToken db none = some row)
    (hver : row.verified_at = some v) :
    UserController.resetPassword cfg db t p p now
      = .ok ("Password reset successfully",
          TokenRepository.updateToken (UserService.updateUser db row.userId p).2 row.id none) := by
  unfold UserController.resetPassword
  rw [if_neg (by simp), verifyReset_eq, if_pos ⟨hsec, hexp⟩]
  dsimp only
  rw [show TokenRepository.findPasswordResetToken db t.payload.jti = some row from hfind]
  dsimp only
  rw [hver]
  rfl

/-- With a codec-valid token and a single unverified, unexpired, user-matching
ledger row, `verifyResetPasswordToken` succeeds and sets verified_at. -/
lemma verifyReset_single (cfg : Config) (db : Db) (t : Jwt) (row : Token)
    (now : Millis)
    (hsec : t.secret = cfg.jwtSecret) (hexp : now < t.exp)
    (hfind : TokenRepository.findPasswordResetToken db none = some row)
    (huid : row.userId = t.payload.userId)
    (hrowexp : now < row.token_expire)
    (hver : row.verified_at = none) :
    UserController.verifyResetPasswordToken cfg db t now
      = .ok ("Token verified successfully", TokenRepository.updateToken db row.id (some now)) := by
  unfold UserController.verifyResetPasswordToken
  rw [verifyReset_eq, if_pos ⟨hsec, hexp⟩]
  dsimp only
  unfold TokenDatabaseService.findAndVerifyPasswordResetToken
    TokenRepository.findAndVerifyPasswordResetToken
  rw [show db.tokens.find? (tokenWhere t.payload.jti .RESET_PASSWORD none) = some row from hfind]
  dsimp only
  rw [if_neg (by simp [huid]), if_neg (Nat.not_le.mpr hrowexp)]
  dsimp only
  rw [hver]
  rfl

/-- C2 amended. Between one issuance and the next, with the issuance row the
only ledger row: `resetPassword` fails with the invalid-or-expired error
before a successful `verifyResetPasswordToken`; after a verify it succeeds
exactly once (a second call fails the same way) and clears verified_at;
however, a further `verifyResetPasswordToken` call with the same consumed,
unexpired token re-sets verified_at without any new `forgotPassword`
issuance (the row is only toggled, never deleted). -/
theorem C2_reset_protocol_ordering (cfg : Config) (db : Db) (row : Token)
    (rt : Jwt) (p : String) (n0 n1 n2 n3 n4 : Millis)
    (hdb : db.tokens = [row]) (hkind : row.token_type = .RESET_PASSWORD)
    (hver : row.verified_at = none) (huid : row.userId = rt.payload.userId)
    (hsec : rt.secret = cfg.jwtSecret)
    (hj0 : n0 < rt.exp) (hj1 : n1 < rt.exp) (hj2 : n2 < rt.exp)
    (hj3 : n3 < rt.exp) (hj4 : n4 < rt.exp)
    (he1 : n1 < row.token_expire) (he4 : n4 < row.token_expire) :
    UserController.resetPassword cfg db rt p p n0
      = .error (createBadRequestError "Invalid or expired password reset token")
    ∧ UserController.verifyResetPasswordToken cfg db rt n1
      = .ok ("Token verified successfully",
          { db with tokens := [{ row with verified_at := some n1 }] })
    ∧ ∃ db2 : Db,
        UserController.resetPassword cfg
            { db with tokens := [{ row with verified_at := some n1 }] } rt p p n2
          = .ok ("Password reset successfully", db2)
        ∧ db2.tokens = [{ row with verified_at := none }]
        ∧ UserController.resetPassword cfg db2 rt p p n3
          = .error (createBadRequestError "Invalid or expired password reset token")
        ∧ UserController.verifyResetPasswordToken cfg db2 rt n4
          = .ok ("Token verified successfully",
              { db2 with tokens := [{ row with verified_at := some n4 }] }) := by
  have hfind0 : TokenRepository.findPasswordResetToken db none = some row :=
    findReset_single db row hdb hkind
  refine ⟨resetPassword_unverified cfg db rt row p n0 hsec hj0 hfind0 hver, ?_, ?_⟩
  · rw [verifyReset_single cfg db rt row n1 hsec hj1 hfind0 huid he1 hver,
      updateToken_single db row hdb (some n1)]
  · set row1 : Token := { row with verified_at := some n1 } with hrow1
    set db1 : Db := { db with tokens := [row1] } with hdb1def
    have hfind1 : TokenRepository.findPasswordResetToken db1 none = some row1 :=
      findReset_single db1 row1 rfl hkind
    set db2 : Db :=
      TokenRepository.updateToken (UserService.updateUser db1 row1.userId p).2 row1.id none
      with hdb2def
    have ht2 : db2.tokens = [{ row with verified_at := none }] := by
      rw [hdb2def, updateToken_tokens, updateUser_tokens, hdb1def]
      dsimp only
      rw [List.map_cons, List.map_nil, if_pos (show row1.id = row.id from rfl)]
    have hfind2 : TokenRepository.findPasswordResetToken db2 none
        = some { row with verified_at := none } :=
      findReset_single db2 { row with verified_at := none } ht2 hkind
    refine ⟨db2, resetPassword_verified cfg db1 rt row1 p n2 n1 hsec hj2 hfind1 rfl,
      ht2, resetPassword_unverified cfg db2 rt { row with verified_at := none } p n3
        hsec hj3 hfind2 rfl, ?_⟩
    rw [verifyReset_single cfg db2 rt { row with verified_at := none } n4 hsec hj4
        hfind2 huid he4 rfl,
      updateToken_single db2 { row with verified_at := none } ht2 (some n4)]

/-- Witness for C2: the concrete issuance state, consumed before verify. -/
theorem C2_reset_protocol_ordering_witness :
    UserController.resetPassword cfgS dbA rtS "NewPass1" "NewPass1" 10
      = .error (createBadRequestError "Invalid or expired password reset token") :=
  (C2_reset_protocol_ordering cfgS dbA rowA rtS "NewPass1" 10 1000 2000 2500 3000
    rfl rfl rfl rfl rfl (by decide) (by decide) (by decide) (by decide) (by decide)
    (by decide) (by decide)).1

/-- C7 amended. The refresh-validation and reset-verification ledger reads
treat a row whose expiry is not strictly in the future exactly as absent, but
the reset-consumption read performs no expiry check at all: with a verified
row of any expiry and a codec-valid signed token, `resetPassword` succeeds. -/
theorem C7_expiry_treated_as_absent (db : Db) (t : Jwt) (jti : Option Jwt)
    (uid : String) (now : Millis) :
    (∀ row, TokenRepository.findRefreshToken db t = some row → row.token_expire ≤ now →
        TokenRepository.isRefreshTokenValid db t now = false)
    ∧ (∀ row, TokenRepository.findPasswordResetToken db jti = some row →
        row.token_expire ≤ now →
        TokenRepository.findAndVerifyPasswordResetToken db jti uid now = none)
    ∧ (∀ (cfg : Config) (row : Token) (v : Millis) (p : String),
        t.secret = cfg.jwtSecret → now < t.exp →
        TokenRepository.findPasswordResetToken db none = some row →
        row.verified_at = some v →
        ∃ db2, UserController.resetPassword cfg db t p p now
          = .ok ("Password reset successfully", db2)) := by
  refine ⟨?_, ?_, ?_⟩
  · intro row hf he
    rw [isValid_of_find db t now row hf]
    simp [Nat.not_lt.mpr he]
  · intro row hf he
    unfold TokenRepository.findAndVerifyPasswordResetToken
    unfold TokenRepository.findPasswordResetToken at hf
    rw [hf]
    dsimp only
    by_cases hu : row.userId = uid
    · rw [if_neg (by simp [hu]), if_pos he]
    · rw [if_pos (by simp [hu])]
  · intro cfg row v p hsec hexp hf hver
    exact ⟨_, resetPassword_verified cfg db t row p now v hsec hexp hf hver⟩

/-- Witness for C7: the concrete ledger-expired verified row is consumed. -/
theorem C7_expiry_treated_as_absent_witness :
    ∃ db2, UserController.resetPassword cfgS dbExp rtS "NewPass1" "NewPass1" 5000
      = .ok ("Password reset successfully", db2) :=
  (C7_expiry_treated_as_absent dbExp rtS none "u1" 5000).2.2 cfgS rowExp 500 "NewPass1"
    rfl (by decide) rfl rfl

/-- C9. A password-reset token is signed with the same JWT_SECRET as access
tokens and carries no kind discriminator, so it verifies under
`verifyAccessToken` for its whole one-hour lifetime, and presented as a
bearer token it passes the auth gate, authenticating the embedded user. -/
theorem C9_reset_token_passes_auth_gate (cfg : Config) (db : Db) (u : User)
    (issuedAt now : Millis)
    (hfind : UserRepository.findById db u.id = some u)
    (hnow : now < issuedAt + 3600000) :
    TokenService.verifyAccessToken cfg
        (TokenService.generatePasswordResetToken cfg (TokenService.createTokenPayload u) issuedAt) now
      = .ok (TokenService.createTokenPayload u)
    ∧ authMiddleware cfg db
        (.bearer (TokenService.generatePasswordResetToken cfg (TokenService.createTokenPayload u) issuedAt)) now
      = .ok u := by
  have hverify : TokenService.verifyAccessToken cfg
      (TokenService.generatePasswordResetToken cfg (TokenService.createTokenPayload u) issuedAt) now
      = .ok (TokenService.createTokenPayload u) := by
    have hlt : now < issuedAt + 60 * 60 * 1000 := by simpa using hnow
    unfold TokenService.verifyAccessToken TokenService.generatePasswordResetToken jwtSign jwtVerify
    rw [if_pos ⟨rfl, hlt⟩]
  refine ⟨hverify, ?_⟩
  unfold authMiddleware
  dsimp only
  rw [show TokenService.verifyJWT cfg
      (TokenService.generatePasswordResetToken cfg (TokenService.createTokenPayload u) issuedAt) now
      = .ok (TokenService.createTokenPayload u) from hverify]
  dsimp only
  rw [show UserService.getUserById db (TokenService.createTokenPayload u).userId = some u from hfind]

/-- Witness for C9: a concrete reset token authenticates its user. -/
theorem C9_reset_token_passes_auth_gate_witness :
    TokenService.verifyAccessToken cfgS
        (TokenService.generatePasswordResetToken cfgS (TokenService.createTokenPayload alice) 0) 5
      = .ok (TokenService.createTokenPayload alice)
    ∧ authMiddleware cfgS ⟨[], [alice], 0⟩
        (.bearer (TokenService.generatePasswordResetToken cfgS (TokenService.createTokenPayload alice) 0)) 5
      = .ok alice :=
  C9_reset_token_passes_auth_gate cfgS ⟨[], [alice], 0⟩ alice 0 5 rfl (by decide)

/-- C10. The persistence-hook hashing guard is length-based: the hook changes
a password only when it is shorter than 60 characters, a 60-or-longer
password supplied through `UserRepository.update` (the `resetPassword` path)
is persisted verbatim and unhashed, while a nonempty shorter password is
stored as its bcrypt digest. -/
theorem C10_password_hash_guard_is_length_based (db : Db) (uid p : String)
    (u0 : User) (hfind : UserRepository.findById db uid = some u0) :
    (∀ u : User, User.hashPassword u ≠ u → u.password.length < 60)
    ∧ (60 ≤ p.length →
        UserRepository.update db uid p
          = (some { u0 with password := p },
             { db with users := db.users.map (fun v => if v.id = uid then { u0 with password := p } else v) }))
    ∧ (p ≠ "" → p.length < 60 →
        (UserRepository.update db uid p).1 = some { u0 with password := bcryptHash p }) := by
  refine ⟨?_, ?_, ?_⟩
  · intro u hne
    by_contra hge
    apply hne
    unfold User.hashPassword
    rw [if_neg (fun hc => hge hc.2)]
  · intro hlen
    have hnohash : User.hashPassword { u0 with password := p } = { u0 with password := p } := by
      unfold User.hashPassword
      rw [if_neg (fun hc => absurd hc.2 (Nat.not_lt.mpr hlen))]
    unfold UserRepository.update
    rw [hfind]
    dsimp only
    rw [hnohash]
  · intro hp hlt
    have hhash : User.hashPassword { u0 with password := p }
        = { u0 with password := bcryptHash p } := by
      unfold User.hashPassword
      rw [if_pos ⟨hp, hlt⟩]
    unfold UserRepository.update
    rw [hfind]
    dsimp only
    rw [hhash]

/-- Witness for C10: a 60-character password is persisted verbatim. -/
theorem C10_password_hash_guard_witness :
    UserRepository.update ⟨[], [alice], 0⟩ "u1" p60
      = (some { alice with password := p60 },
         { (⟨[], [alice], 0⟩ : Db) with users := (⟨[], [alice], 0⟩ : Db).users.map (fun v => if v.id = "u1" then { alice with password := p60 } else v) }) :=
  (C10_password_hash_guard_is_length_based ⟨[], [alice], 0⟩ "u1" p60 alice rfl).2.1
    (by decide)

end FreshAI
